import Mathlib

/-!
Verification of the OpenRouter client core (`src/llm_openrouter.py`).

A shallow embedding of the request-dispatch core of the llm-comparison-tool
repository.  Python exceptions are modelled with `Except PyError`; the HTTP
layer is modelled by an `HttpOutcome` value (transport error, or a status code
with a reason phrase and an already-parsed JSON body).  JSON bodies are
modelled per endpoint as structures whose fields are `Option`s: a strict
Python access `d["k"]` on a missing key raises `KeyError`, while `d.get("k", v)`
falls back to the default.  The process environment (after `dotenv` loading)
is modelled as an `Env` record of the two key variables.  Floating-point
request knobs (temperature, measured wall times, prices, usage cost) are
modelled as `Rat`: no claim depends on float rounding, only on which values
flow where.

Thread-pool fan-out (`concurrent.futures.ThreadPoolExecutor`) is modelled by
sequential processing of the model list in submission order — one admissible
`as_completed` schedule.  The collection loop calls `future.result()`, which
re-raises the task's exception, so the embedding propagates the first failure
it meets; the properties proved about success/failure of the whole batch are
schedule-independent.
-/

set_option autoImplicit false

namespace LLMOpenRouter

/-- Python exception values that the embedded code can raise. -/
inductive PyError where
  | keyError (key : String)
  | indexError (i : Nat)
  | httpError (msg : String)
  | requestException (msg : String)
  | environmentError (msg : String)
deriving DecidableEq

/-- Outcome of one HTTP round trip: either the `requests` call itself raises a
`RequestException` (timeouts, connection failures), or a response arrives with
a status code, a reason phrase and a parsed JSON body of type `β`. -/
inductive HttpOutcome (β : Type) where
  | transportError (msg : String)
  | response (status : Nat) (reason : String) (body : β)
deriving DecidableEq

/-- The process environment after `dotenv.load_dotenv`: the two API-key
variables `_get_api_key` consults (`None` models an unset variable). -/
structure Env where
  openai_api_key : Option String
  openrouter_api_key : Option String
deriving DecidableEq

/-- The `message` object inside a chat-completion `choices` entry. -/
structure ChoiceMessage where
  content? : Option String
deriving DecidableEq

/-- One entry of the chat-completion `choices` array. -/
structure Choice where
  message? : Option ChoiceMessage
  finish_reason? : Option String
deriving DecidableEq

/-- Parsed JSON body of a chat-completion response, restricted to the keys the
client reads (`id`, `choices`); unknown extra fields are ignored by the code. -/
structure ChatPayload where
  id? : Option String
  choices? : Option (List Choice)
deriving DecidableEq

/-- The `data` object of a generation-stats response. -/
structure GenData where
  tokens_prompt? : Option Int
  tokens_completion? : Option Int
  native_tokens_prompt? : Option Int
  native_tokens_completion? : Option Int
  usage? : Option Rat
deriving DecidableEq

/-- Parsed JSON body of a generation-stats response (`{"data": {...}}`). -/
structure GenPayload where
  data? : Option GenData
deriving DecidableEq

/-- JSON payload posted by `chat_completion` (source lines 200-208). -/
structure ChatRequestPayload where
  model : String
  messages : List (String × String)
  temperature : Rat
  max_tokens : Int
deriving DecidableEq

/-- An outgoing POST request: url, JSON payload, headers, `timeout=` argument. -/
structure ChatRequest where
  url : String
  payload : ChatRequestPayload
  headers : List (String × String)
  timeout : Nat
deriving DecidableEq

/-- An outgoing GET request: url, headers, `timeout=` argument. -/
structure GetRequest where
  url : String
  headers : List (String × String)
  timeout : Nat
deriving DecidableEq

/-- The `LLMResponse` dataclass (source lines 27-47). -/
structure LLMResponse where
  id : String
  model : String
  prompt : String
  user_input : String
  response : String
  finish_reason : String
  raw_request : ChatRequestPayload
  raw_response : ChatPayload
  elapsed_time : Rat
deriving DecidableEq

/-- The `LLMCostAndStats` dataclass (source lines 50-81). -/
structure LLMCostAndStats where
  id : String
  gpt_tokens_prompt : Int
  gpt_tokens_completion : Int
  native_tokens_prompt : Int
  native_tokens_completion : Int
  cost : Rat
  raw_response : GenData
  elapsed_time : Rat
deriving DecidableEq

/-- The `Model` frozen dataclass (source lines 84-99).  `@dataclass(frozen=True)`
derives `__eq__` and `__hash__` over ALL fields, which the embedding mirrors
by structural equality (`DecidableEq`). -/
structure Model where
  id : String
  name : String
  pricing_prompt : Rat
  pricing_completion : Rat
  context_length : Int
  max_completion_tokens : Int
  tokenizer : String
  instruct_type : String
deriving DecidableEq

/-- The constant `_OPENROUTER_API` (source line 23). -/
def OPENROUTER_API : String := "https://openrouter.ai/api/v1"

/-- The constant `_REFERER` (source line 24). -/
def REFERER : String := "http://localhost:3000"

/-- The `timeout=120` argument passed by `chat_completion` (source line 219). -/
def CHAT_COMPLETION_TIMEOUT : Nat := 120

/-- The `timeout=360` argument passed by `cost_and_stats` (source line 169). -/
def GENERATION_TIMEOUT : Nat := 360

/-- The `timeout=360` argument passed by `available_models` (source line 125). -/
def MODELS_TIMEOUT : Nat := 360

/-- Python truthiness of an optional string: `None` and `""` are falsy. -/
def truthy : Option String → Bool
  | none => false
  | some s => !(s == "")

/-- Source function `_get_api_key` (lines 102-120): try `OPENAI_API_KEY`, fall back to
`OPENROUTER_API_KEY`, raise `EnvironmentError` when neither is set (the
`dotenv` loading only populates the environment, which `Env` already models
post-load). -/
def _get_api_key (env : Env) : Except PyError String :=
  let k1 := env.openai_api_key
  let k := if truthy k1 then k1 else env.openrouter_api_key
  if truthy k then
    Except.ok (k.getD "")
  else
    Except.error (PyError.environmentError
      "API key environment variable not set -- see README.md for instructions")

/-- The GET request issued by `available_models` (source line 125): note that
it passes NO headers at all — in particular no `Authorization` header. -/
def available_models_request : GetRequest :=
  { url := OPENROUTER_API ++ "/models", headers := [], timeout := MODELS_TIMEOUT }

/-- The GET request issued by `cost_and_stats` (source lines 163-169): the
API key is read from the environment at call time (lines 162-165), so the
header reflects the environment current at this call. -/
def generation_request (env : Env) (id : String) : Except PyError GetRequest :=
  match _get_api_key env with
  | Except.error e => Except.error e
  | Except.ok key =>
    Except.ok { url := OPENROUTER_API ++ "/generation?id=" ++ id,
                headers := [("Authorization", "Bearer " ++ key)],
                timeout := GENERATION_TIMEOUT }

/-- Source function `cost_and_stats` (lines 156-193).  The `try` block covers only the
HTTP round trip and `raise_for_status()`: a `RequestException` or a 4xx/5xx
status folds to `None` (as does the explicit 404 check), but the strict JSON
accesses `json()["data"]`, `payload["tokens_prompt"]`, ... happen AFTER the
`try` block, so a missing key raises `KeyError` to the caller. -/
def cost_and_stats (env : Env) (outcome : HttpOutcome GenPayload)
    (response : LLMResponse) (response_time : Rat) :
    Except PyError (Option LLMCostAndStats) :=
  match generation_request env response.id with
  | Except.error e => Except.error e
  | Except.ok _req =>
    match outcome with
    | HttpOutcome.transportError _ => Except.ok none
    | HttpOutcome.response status _reason body =>
      if status == 404 then Except.ok none
      else if 400 ≤ status ∧ status < 600 then Except.ok none
      else
        match body.data? with
        | none => Except.error (PyError.keyError "data")
        | some payload =>
          match payload.tokens_prompt? with
          | none => Except.error (PyError.keyError "tokens_prompt")
          | some tp =>
            match payload.tokens_completion? with
            | none => Except.error (PyError.keyError "tokens_completion")
            | some tc =>
              match payload.native_tokens_prompt? with
              | none => Except.error (PyError.keyError "native_tokens_prompt")
              | some ntp =>
                match payload.native_tokens_completion? with
                | none => Except.error (PyError.keyError "native_tokens_completion")
                | some ntc =>
                  match payload.usage? with
                  | none => Except.error (PyError.keyError "usage")
                  | some usage =>
                    Except.ok (some
                      { id := response.id,
                        gpt_tokens_prompt := tp,
                        gpt_tokens_completion := tc,
                        native_tokens_prompt := ntp,
                        native_tokens_completion := ntc,
                        cost := usage,
                        raw_response := payload,
                        elapsed_time := response_time })

/-- The JSON payload built by `chat_completion` (source lines 200-208). -/
def chat_payload (model prompt user_input : String) (temperature : Rat)
    (max_tokens : Int) : ChatRequestPayload :=
  { model := model,
    messages := [("system", prompt), ("user", user_input)],
    temperature := temperature,
    max_tokens := max_tokens }

/-- The POST request issued by `chat_completion` (source lines 200-219): the
payload and headers are built unconditionally — there is no validation of
`temperature` or `max_tokens` anywhere before the network call.  The API key
is read from the environment at call time (lines 210-214). -/
def chat_request (env : Env) (model prompt user_input : String)
    (temperature : Rat) (max_tokens : Int) : Except PyError ChatRequest :=
  match _get_api_key env with
  | Except.error e => Except.error e
  | Except.ok key =>
    Except.ok { url := OPENROUTER_API ++ "/chat/completions",
                payload := chat_payload model prompt user_input temperature max_tokens,
                headers := [("Authorization", "Bearer " ++ key),
                            ("HTTP-Referer", REFERER)],
                timeout := CHAT_COMPLETION_TIMEOUT }

/-- Source function `chat_completion` (lines 196-249).  Any status other than exactly
200 raises `HTTPError` with the model name and status (lines 222-225); the
JSON keys `id`, `choices`, `[0]`, `message`, `content` are accessed strictly
(lines 234-238, raising `KeyError`/`IndexError` when absent), while
`finish_reason` is read with `.get(..., "not available")` (line 244) — in the
branch where `choices` was already accessed strictly, `data.get("choices",
[{}])[0]` re-reads the same nonempty list, i.e. yields the first choice. -/
def chat_completion (env : Env) (outcome : HttpOutcome ChatPayload)
    (model prompt user_input : String) (temperature : Rat) (max_tokens : Int)
    (elapsed_time : Rat) : Except PyError LLMResponse :=
  match chat_request env model prompt user_input temperature max_tokens with
  | Except.error e => Except.error e
  | Except.ok req =>
    match outcome with
    | HttpOutcome.transportError msg => Except.error (PyError.requestException msg)
    | HttpOutcome.response status reason data =>
      if status ≠ 200 then
        Except.error (PyError.httpError
          (model ++ "\nHTTP error " ++ toString status ++ " - " ++ reason))
      else
        match data.id? with
        | none => Except.error (PyError.keyError "id")
        | some rid =>
          match data.choices? with
          | none => Except.error (PyError.keyError "choices")
          | some choices =>
            match choices with
            | [] => Except.error (PyError.indexError 0)
            | c0 :: _ =>
              match c0.message? with
              | none => Except.error (PyError.keyError "message")
              | some msg =>
                match msg.content? with
                | none => Except.error (PyError.keyError "content")
                | some content =>
                  Except.ok
                    { id := rid,
                      model := model,
                      prompt := prompt,
                      user_input := user_input,
                      response := content,
                      finish_reason := c0.finish_reason?.getD "not available",
                      raw_request := req.payload,
                      raw_response := data,
                      elapsed_time := elapsed_time }

/-- Source function `chat_completion_multiple` (lines 252-267).  One task per model is
submitted; `future.result()` (line 265) re-raises any exception the task
raised, which unwinds the collection loop: the first failing task aborts the
whole call and the already-collected results are discarded.  The `oracle`
gives each model id's HTTP outcome; the list is processed in submission
order, one admissible `as_completed` schedule (success/failure of the whole
call does not depend on the schedule).  The Python `results` dict is keyed by
the full `Model` value (frozen-dataclass equality over all fields), which the
association list mirrors. -/
def chat_completion_multiple (env : Env) (oracle : String → HttpOutcome ChatPayload)
    (models : List Model) (prompt user_input : String) (temperature : Rat)
    (max_tokens : Int) (elapsed_time : Rat) :
    Except PyError (List (Model × LLMResponse)) :=
  match models with
  | [] => Except.ok []
  | m :: rest =>
    match chat_completion env (oracle m.id) m.id prompt user_input temperature
        max_tokens elapsed_time with
    | Except.error e => Except.error e
    | Except.ok r =>
      match chat_completion_multiple env oracle rest prompt user_input
          temperature max_tokens elapsed_time with
      | Except.error e => Except.error e
      | Except.ok rs => Except.ok ((m, r) :: rs)

/-- Source function `cost_and_stats_multiple` (lines 270-283): same fan-out/collect
pattern as `chat_completion_multiple`, over the entries of the response dict;
`future.result()` re-raises, so an exception escaping `cost_and_stats`
(e.g. a `KeyError` on a malformed 2xx body) aborts the whole batch. -/
def cost_and_stats_multiple (env : Env) (oracle : String → HttpOutcome GenPayload)
    (llm_responses : List (Model × LLMResponse)) (response_time : Rat) :
    Except PyError (List (Model × Option LLMCostAndStats)) :=
  match llm_responses with
  | [] => Except.ok []
  | (m, resp) :: rest =>
    match cost_and_stats env (oracle resp.id) resp response_time with
    | Except.error e => Except.error e
    | Except.ok r =>
      match cost_and_stats_multiple env oracle rest response_time with
      | Except.error e => Except.error e
      | Except.ok rs => Except.ok ((m, r) :: rs)

/-- Returns `true` exactly when the embedded Python call returned normally
(did not raise). -/
def isSuccess {ε α : Type} : Except ε α → Bool
  | Except.ok _ => true
  | Except.error _ => false

/-- The key list of a dispatch result: `some` of the dict keys in insertion
order when the call returned a dict, `none` when it raised. -/
def resultKeys (r : Except PyError (List (Model × LLMResponse))) :
    Option (List Model) :=
  match r with
  | Except.ok l => some (l.map Prod.fst)
  | Except.error _ => none

/-- The `Authorization` header value carried by a chat POST request, when the
call got as far as issuing one. -/
def chatRequestAuth (r : Except PyError ChatRequest) : Option String :=
  match r with
  | Except.ok req => req.headers.lookup "Authorization"
  | Except.error _ => none

/-- The `Authorization` header value carried by a GET request, when the call
got as far as issuing one. -/
def getRequestAuth (r : Except PyError GetRequest) : Option String :=
  match r with
  | Except.ok req => req.headers.lookup "Authorization"
  | Except.error _ => none

/-- Concrete environment: `OPENAI_API_KEY` set, `OPENROUTER_API_KEY` unset. -/
def envA : Env := { openai_api_key := some "test-key", openrouter_api_key := none }

/-- A well-formed chat `choices` entry with both a message and a finish reason. -/
def okChoice : Choice :=
  { message? := some { content? := some "4" }, finish_reason? := some "stop" }

/-- A well-formed chat-completion body. -/
def okBody : ChatPayload := { id? := some "gen-0001", choices? := some [okChoice] }

/-- A chat-completion body whose first choice has no `finish_reason`. -/
def noFinishBody : ChatPayload :=
  { id? := some "gen-0002",
    choices? := some [{ message? := some { content? := some "4" }, finish_reason? := none }] }

/-- Gateway behaviour where every model answers 200 with a well-formed body. -/
def oracleAllOk : String → HttpOutcome ChatPayload :=
  fun _ => HttpOutcome.response 200 "OK" okBody

/-- Gateway behaviour where exactly the model `model-b` fails with a transport
error (read timeout) and every other model succeeds. -/
def oracleFailB : String → HttpOutcome ChatPayload :=
  fun id =>
    if id == "model-b" then HttpOutcome.transportError "ReadTimeout"
    else HttpOutcome.response 200 "OK" okBody

/-- Builds a catalog model with fixed pricing/architecture fields. -/
def mkModel (id name : String) : Model :=
  { id := id, name := name, pricing_prompt := 0, pricing_completion := 0,
    context_length := 4096, max_completion_tokens := 0, tokenizer := "GPT",
    instruct_type := "none" }

/-- Concrete model A. -/
def mA : Model := mkModel "model-a" "Model A"

/-- Concrete model B (the one `oracleFailB` makes fail). -/
def mB : Model := mkModel "model-b" "Model B"

/-- Concrete model C. -/
def mC : Model := mkModel "model-c" "Model C"

/-- Concrete model with identifier `model-x` and some pricing. -/
def mX1 : Model :=
  { id := "model-x", name := "X", pricing_prompt := 1/1000, pricing_completion := 2/1000,
    context_length := 8192, max_completion_tokens := 0, tokenizer := "GPT",
    instruct_type := "none" }

/-- A model with the SAME identifier as `mX1` but a different prompt price. -/
def mX2 : Model :=
  { id := "model-x", name := "X", pricing_prompt := 3/1000, pricing_completion := 2/1000,
    context_length := 8192, max_completion_tokens := 0, tokenizer := "GPT",
    instruct_type := "none" }

/-- A concrete successful `LLMResponse`, as produced for `okBody`. -/
def respA : LLMResponse :=
  { id := "gen-0001", model := "model-a", prompt := "p", user_input := "u",
    response := "4", finish_reason := "stop",
    raw_request := chat_payload "model-a" "p" "u" 0 2048,
    raw_response := okBody, elapsed_time := 0 }

/-- A well-formed generation-stats `data` object. -/
def genDataOk : GenData :=
  { tokens_prompt? := some 10, tokens_completion? := some 20,
    native_tokens_prompt? := some 11, native_tokens_completion? := some 21,
    usage? := some (3/1000) }

/-- A well-formed generation-stats body. -/
def genBodyOk : GenPayload := { data? := some genDataOk }

/-- A 2xx generation-stats body that lacks the required `data` key. -/
def genBodyNoData : GenPayload := { data? := none }

/-- The `LLMCostAndStats` value `cost_and_stats` builds from `genBodyOk` for
`respA`. -/
def statsOkA : LLMCostAndStats :=
  { id := "gen-0001", gpt_tokens_prompt := 10, gpt_tokens_completion := 20,
    native_tokens_prompt := 11, native_tokens_completion := 21,
    cost := 3/1000, raw_response := genDataOk, elapsed_time := 0 }

/-- C1 counterexample: with three models of which exactly `model-b` fails its
chat call with a transport error, `chat_completion_multiple` does NOT return a
mapping holding the two successful results — the re-raised exception aborts
the whole dispatch and the successes are discarded (there is no `Failure`
entry type in the code at all). -/
theorem chat_completion_multiple_one_failure_discards_all :
    chat_completion_multiple envA oracleFailB [mA, mB, mC] "p" "u" 0 2048 0
      = Except.error (PyError.requestException "ReadTimeout") := by
  rfl

/-- C1 (amended): whenever any model's chat call raises, the whole
`chat_completion_multiple` call raises — the collection loop retrieves each
task with `future.result()`, which re-raises the task's exception and unwinds
past the result dict, discarding sibling results instead of recording a
failure entry. -/
theorem chat_completion_multiple_any_failure_aborts (env : Env)
    (oracle : String → HttpOutcome ChatPayload) (models : List Model)
    (prompt user_input : String) (temperature : Rat) (max_tokens : Int)
    (elapsed_time : Rat)
    (h : ∃ m ∈ models, isSuccess (chat_completion env (oracle m.id) m.id prompt
      user_input temperature max_tokens elapsed_time) = false) :
    isSuccess (chat_completion_multiple env oracle models prompt user_input
      temperature max_tokens elapsed_time) = false := by
  induction models with
  | nil => simp at h
  | cons m rest ih =>
    obtain ⟨m', hmem, hfail⟩ := h
    unfold chat_completion_multiple
    rcases List.mem_cons.mp hmem with hm | hm
    · subst hm
      cases hr : chat_completion env (oracle m'.id) m'.id prompt user_input
          temperature max_tokens elapsed_time with
      | error e => simp [isSuccess]
      | ok r => rw [hr] at hfail; simp [isSuccess] at hfail
    · cases hr : chat_completion env (oracle m.id) m.id prompt user_input
          temperature max_tokens elapsed_time with
      | error e => simp [isSuccess]
      | ok r =>
        have hrec := ih ⟨m', hm, hfail⟩
        cases hrest : chat_completion_multiple env oracle rest prompt user_input
            temperature max_tokens elapsed_time with
        | error e => simp [isSuccess]
        | ok rs => rw [hrest] at hrec; simp [isSuccess] at hrec

/-- Witness for C1's amended theorem at a concrete failing batch. -/
theorem chat_completion_multiple_any_failure_aborts_witness :
    isSuccess (chat_completion_multiple envA oracleFailB [mB, mC] "w" "x" 0 64 0)
      = false :=
  chat_completion_multiple_any_failure_aborts envA oracleFailB [mB, mC] "w" "x"
    0 64 0 ⟨mB, by simp, by rfl⟩

/-- C2 counterexample: for a nonempty list of two distinct models where one
chat call fails, `chat_completion_multiple` raises instead of returning any
mapping, so in particular no mapping with one entry per input model exists. -/
theorem chat_completion_multiple_failure_no_mapping :
    [mA, mB].Nodup ∧
    resultKeys (chat_completion_multiple envA oracleFailB [mA, mB] "p" "u" 0 2048 0)
      = none :=
  ⟨by decide, by rfl⟩

/-- C2 (amended): when every model's chat call succeeds,
`chat_completion_multiple` returns a dict with exactly one entry per input
model, keyed by the models in submission order; when any call fails it
returns no mapping at all. -/
theorem chat_completion_multiple_keys_all_ok (env : Env)
    (oracle : String → HttpOutcome ChatPayload) (models : List Model)
    (prompt user_input : String) (temperature : Rat) (max_tokens : Int)
    (elapsed_time : Rat)
    (h : ∀ m ∈ models, isSuccess (chat_completion env (oracle m.id) m.id prompt
      user_input temperature max_tokens elapsed_time) = true) :
    resultKeys (chat_completion_multiple env oracle models prompt user_input
      temperature max_tokens elapsed_time) = some models := by
  induction models with
  | nil => rfl
  | cons m rest ih =>
    have hm := h m (List.mem_cons_self m rest)
    unfold chat_completion_multiple
    cases hr : chat_completion env (oracle m.id) m.id prompt user_input
        temperature max_tokens elapsed_time with
    | error e => rw [hr] at hm; simp [isSuccess] at hm
    | ok r =>
      have hrest := ih (fun m' hm' => h m' (List.mem_cons_of_mem m hm'))
      cases hrest2 : chat_completion_multiple env oracle rest prompt user_input
          temperature max_tokens elapsed_time with
      | error e => rw [hrest2] at hrest; simp [resultKeys] at hrest
      | ok rs =>
        rw [hrest2] at hrest
        simp only [resultKeys, Option.some.injEq] at hrest
        simp [resultKeys, hrest]

/-- Witness for C2's amended theorem at a concrete all-success batch. -/
theorem chat_completion_multiple_keys_all_ok_witness :
    resultKeys (chat_completion_multiple envA oracleAllOk [mA, mC] "p" "u" 0 2048 0)
      = some [mA, mC] :=
  chat_completion_multiple_keys_all_ok envA oracleAllOk [mA, mC] "p" "u" 0 2048 0
    (by intro m hm; fin_cases hm <;> rfl)

/-- C3 counterexample: a 200 stats response whose body lacks the required
`data` key makes `cost_and_stats` raise `KeyError("data")` to the caller —
the strict JSON accesses sit outside the `try` block, so this protocol
failure (a 2xx payload missing a required field) is NOT folded into `None`. -/
theorem cost_and_stats_missing_data_raises :
    cost_and_stats envA (HttpOutcome.response 200 "OK" genBodyNoData) respA 0
      = Except.error (PyError.keyError "data") := by
  rfl

/-- C3 (amended): failures of the HTTP round trip itself are folded into
`None` — a transport-level `RequestException`, the explicit 404 check, and
any 4xx/5xx status caught by `raise_for_status()` all return `None` without
raising; only a malformed 2xx body escapes as an exception. -/
theorem cost_and_stats_http_failures_fold_to_none (env : Env) (k : String)
    (resp : LLMResponse) (t : Rat) (msg reason : String) (status : Nat)
    (body : GenPayload)
    (hk : _get_api_key env = Except.ok k)
    (hs1 : 400 ≤ status) (hs2 : status < 600) :
    cost_and_stats env (HttpOutcome.transportError msg) resp t = Except.ok none ∧
    cost_and_stats env (HttpOutcome.response 404 reason body) resp t = Except.ok none ∧
    cost_and_stats env (HttpOutcome.response status reason body) resp t = Except.ok none := by
  refine ⟨?_, ?_, ?_⟩ <;> simp only [cost_and_stats, generation_request, hk]
  · rfl
  · rcases eq_or_ne status 404 with h | h
    · subst h; rfl
    · have hb : ¬ ((status == 404) = true) := by simp [h]
      rw [if_neg hb, if_pos ⟨hs1, hs2⟩]

/-- Witness for C3's amended theorem at concrete failing lookups. -/
theorem cost_and_stats_http_failures_fold_to_none_witness :
    cost_and_stats envA (HttpOutcome.transportError "ConnectionError") respA 0
        = Except.ok none ∧
    cost_and_stats envA (HttpOutcome.response 404 "Not Found" genBodyOk) respA 0
        = Except.ok none ∧
    cost_and_stats envA (HttpOutcome.response 500 "Internal Server Error" genBodyOk)
        respA 0 = Except.ok none :=
  cost_and_stats_http_failures_fold_to_none envA "test-key" respA 0
    "ConnectionError" "Internal Server Error" 500 genBodyOk rfl
    (by decide) (by decide)

/-- C4 counterexample: the model-catalog request built by `available_models`
carries no headers at all — in particular no `Authorization` bearer header. -/
theorem available_models_request_has_no_auth :
    available_models_request.headers = [] := by
  rfl

/-- C4 (amended): the chat-completion and stats requests each carry an
`Authorization: Bearer <key>` header whose key is resolved from the
environment at call time (so a rotated key is picked up by the next call),
but the model-catalog request carries no `Authorization` header. -/
theorem auth_header_on_chat_and_stats_only (env : Env) (k : String)
    (gid model prompt user_input : String) (t : Rat) (mt : Int)
    (hk : _get_api_key env = Except.ok k) :
    chatRequestAuth (chat_request env model prompt user_input t mt)
        = some ("Bearer " ++ k) ∧
    getRequestAuth (generation_request env gid) = some ("Bearer " ++ k) ∧
    getRequestAuth (Except.ok available_models_request) = none := by
  refine ⟨?_, ?_, by rfl⟩ <;>
    simp [chatRequestAuth, getRequestAuth, chat_request, generation_request, hk,
      List.lookup]

/-- Witness for C4's amended theorem at a concrete environment. -/
theorem auth_header_on_chat_and_stats_only_witness :
    chatRequestAuth (chat_request envA "model-a" "p" "u" 0 2048)
        = some ("Bearer " ++ "test-key") ∧
    getRequestAuth (generation_request envA "gen-0001")
        = some ("Bearer " ++ "test-key") ∧
    getRequestAuth (Except.ok available_models_request) = none :=
  auth_header_on_chat_and_stats_only envA "test-key" "gen-0001" "model-a" "p" "u"
    0 2048 rfl

/-- C5 counterexample: `chat_completion` performs no validation of
`max_tokens`: with `max_tokens = 0` the POST request is still built and, with
a successful gateway outcome, the call returns a response constructed from the
network reply — so nothing is rejected before the network call; the same
holds for a negative `max_tokens`. -/
theorem chat_completion_accepts_nonpositive_max_tokens :
    isSuccess (chat_request envA "m" "p" "u" 0 0) = true ∧
    isSuccess (chat_completion envA (HttpOutcome.response 200 "OK" okBody)
        "m" "p" "u" 0 0 0) = true ∧
    isSuccess (chat_completion envA (HttpOutcome.response 200 "OK" okBody)
        "m" "p" "u" 0 (-5) 0) = true :=
  ⟨by rfl, by rfl, by rfl⟩

/-- C5 (amended): `chat_completion` forwards `temperature` and `max_tokens`
into the request payload unvalidated — every value, including `max_tokens`
of 0 or negative and `temperature` outside `[0, 1]`, is accepted and sent;
only the surrounding UI layer constrains the ranges. -/
theorem chat_request_forwards_params_unvalidated (env : Env) (k : String)
    (model prompt user_input : String) (t : Rat) (mt : Int)
    (hk : _get_api_key env = Except.ok k) :
    ∃ r, chat_request env model prompt user_input t mt = Except.ok r ∧
      r.payload.max_tokens = mt ∧ r.payload.temperature = t := by
  refine ⟨{ url := OPENROUTER_API ++ "/chat/completions",
            payload := chat_payload model prompt user_input t mt,
            headers := [("Authorization", "Bearer " ++ k), ("HTTP-Referer", REFERER)],
            timeout := CHAT_COMPLETION_TIMEOUT }, ?_, rfl, rfl⟩
  simp [chat_request, hk]

/-- Witness for C5's amended theorem at `max_tokens = 0` and an out-of-range
temperature. -/
theorem chat_request_forwards_params_unvalidated_witness :
    ∃ r, chat_request envA "m" "p" "u" 2 0 = Except.ok r ∧
      r.payload.max_tokens = 0 ∧ r.payload.temperature = 2 :=
  chat_request_forwards_params_unvalidated envA "test-key" "m" "p" "u" 2 0 rfl

/-- C6 counterexample: the chat-completion timeout bound is NOT strictly
longer than the stats and catalog bounds — the code has it the other way
around (120 s for chat vs 360 s for stats and catalog). -/
theorem chat_timeout_not_longer :
    ¬ (GENERATION_TIMEOUT < CHAT_COMPLETION_TIMEOUT ∧
       available_models_request.timeout < CHAT_COMPLETION_TIMEOUT) := by
  decide

/-- C6 (amended): the fixed per-call timeout bounds are 120 s for chat
completion and 360 s for both the stats lookup and the model catalog, so the
chat bound is strictly SHORTER than the stats/catalog bound. -/
theorem chat_timeout_shorter_than_stats_and_catalog :
    CHAT_COMPLETION_TIMEOUT = 120 ∧ GENERATION_TIMEOUT = 360 ∧
    available_models_request.timeout = 360 ∧
    CHAT_COMPLETION_TIMEOUT < GENERATION_TIMEOUT ∧
    CHAT_COMPLETION_TIMEOUT < available_models_request.timeout := by
  decide

/-- C7 counterexample: `mX1` and `mX2` share the identifier `model-x` and
differ only in `pricing_prompt`; they are DISTINCT values under the frozen
dataclass equality, and a dispatch over both yields a dict with TWO entries
keyed by the two full `Model` values — the result mapping is not keyed by the
identifier string, and identifier-equality does not make two models the same
key. -/
theorem model_key_not_identifier_only :
    mX1.id = mX2.id ∧ mX1 ≠ mX2 ∧
    resultKeys (chat_completion_multiple envA oracleAllOk [mX1, mX2] "p" "u" 0 8 0)
      = some [mX1, mX2] :=
  ⟨rfl, by norm_num [mX1, mX2], by rfl⟩

/-- C7 (amended): `Model` equality — the equality Python uses for dict keys,
since `@dataclass(frozen=True)` derives `__eq__`/`__hash__` over the whole
field tuple — identifies two models exactly when ALL eight fields agree, not
when the identifier alone does; result dicts are keyed by these full `Model`
values. -/
theorem model_eq_of_all_fields (a b : Model)
    (h1 : a.id = b.id) (h2 : a.name = b.name)
    (h3 : a.pricing_prompt = b.pricing_prompt)
    (h4 : a.pricing_completion = b.pricing_completion)
    (h5 : a.context_length = b.context_length)
    (h6 : a.max_completion_tokens = b.max_completion_tokens)
    (h7 : a.tokenizer = b.tokenizer)
    (h8 : a.instruct_type = b.instruct_type) : a = b := by
  cases a
  cases b
  simp_all

/-- Witness for C7's amended theorem at concrete models. -/
theorem model_eq_of_all_fields_witness : mkModel "model-a" "Model A" = mA :=
  model_eq_of_all_fields (mkModel "model-a" "Model A") mA
    rfl rfl rfl rfl rfl rfl rfl rfl

/-- Helper for C8: whenever `cost_and_stats` returns a stats value, its `id`
field was copied from the originating response (`cost_stats.id = response.id`,
source line 185). -/
theorem cost_and_stats_ok_some_id (env : Env) (o : HttpOutcome GenPayload)
    (resp : LLMResponse) (t : Rat) (s : LLMCostAndStats)
    (h : cost_and_stats env o resp t = Except.ok (some s)) : s.id = resp.id := by
  unfold cost_and_stats at h
  repeat' split at h
  all_goals simp only [Except.ok.injEq, Option.some.injEq, reduceCtorEq] at h
  subst h
  rfl

/-- C8: whenever the stats lookup returns a `Stats` value, its `id` equals
the originating response's correlation id; hence two lookups with the same
correlation id that both return stats have `id` fields identical to each
other and to the input. -/
theorem cost_and_stats_id_correlates (env : Env) (o1 o2 : HttpOutcome GenPayload)
    (resp : LLMResponse) (t1 t2 : Rat) (s1 s2 : LLMCostAndStats)
    (h1 : cost_and_stats env o1 resp t1 = Except.ok (some s1))
    (h2 : cost_and_stats env o2 resp t2 = Except.ok (some s2)) :
    s1.id = resp.id ∧ s2.id = resp.id ∧ s1.id = s2.id := by
  have a1 := cost_and_stats_ok_some_id env o1 resp t1 s1 h1
  have a2 := cost_and_stats_ok_some_id env o2 resp t2 s2 h2
  exact ⟨a1, a2, a1.trans a2.symm⟩

/-- Witness for C8 at a concrete double lookup. -/
theorem cost_and_stats_id_correlates_witness :
    statsOkA.id = respA.id ∧ statsOkA.id = respA.id ∧ statsOkA.id = statsOkA.id :=
  cost_and_stats_id_correlates envA (HttpOutcome.response 200 "OK" genBodyOk)
    (HttpOutcome.response 200 "OK" genBodyOk) respA 0 0 statsOkA statsOkA
    (by rfl) (by rfl)

/-- C9 counterexample: the sentinel behaviour does NOT extend to every 2xx
status — at status 201 with a payload whose first choice lacks
`finish_reason`, `chat_completion` raises `HTTPError` (the code treats any
status other than exactly 200 as a failure, source lines 222-225), so no
`LLMResponse` with the `not available` sentinel is returned. -/
theorem chat_completion_201_missing_finish_reason_raises :
    chat_completion envA (HttpOutcome.response 201 "Created" noFinishBody)
        "model-a" "p" "u" 0 2048 0
      = Except.error (PyError.httpError
          ("model-a" ++ "\nHTTP error " ++ toString 201 ++ " - " ++ "Created")) := by
  rfl

/-- C9 (amended): for a chat response with status exactly 200 — the only
status the client accepts — whose first choice carries a message and content
but no `finish_reason`, `chat_completion` returns a normal `LLMResponse`
whose `finish_reason` is the explicit sentinel string `not available` rather
than raising; any other 2xx status raises `HTTPError` before the payload is
inspected. -/
theorem chat_completion_missing_finish_reason_sentinel (env : Env)
    (k model prompt user_input reason rid content : String)
    (t : Rat) (mt : Int) (el : Rat) (m0 : ChoiceMessage) (c0 : Choice)
    (rest : List Choice)
    (hk : _get_api_key env = Except.ok k)
    (hm : c0.message? = some m0) (hc : m0.content? = some content)
    (hf : c0.finish_reason? = none) :
    ∃ r, chat_completion env
        (HttpOutcome.response 200 reason { id? := some rid, choices? := some (c0 :: rest) })
        model prompt user_input t mt el = Except.ok r ∧
      r.finish_reason = "not available" := by
  refine ⟨{ id := rid, model := model, prompt := prompt, user_input := user_input,
            response := content,
            finish_reason := c0.finish_reason?.getD "not available",
            raw_request := chat_payload model prompt user_input t mt,
            raw_response := { id? := some rid, choices? := some (c0 :: rest) },
            elapsed_time := el }, ?_, ?_⟩
  · simp only [chat_completion, chat_request, hk, hm, hc]
    rfl
  · simp [hf]

/-- Witness for C9 at a concrete body without `finish_reason`. -/
theorem chat_completion_missing_finish_reason_sentinel_witness :
    ∃ r, chat_completion envA (HttpOutcome.response 200 "OK" noFinishBody)
        "model-a" "p" "u" 0 2048 0 = Except.ok r ∧
      r.finish_reason = "not available" :=
  chat_completion_missing_finish_reason_sentinel envA "test-key" "model-a" "p" "u"
    "OK" "gen-0002" "4" 0 2048 0 { content? := some "4" }
    { message? := some { content? := some "4" }, finish_reason? := none } []
    rfl rfl rfl rfl

/-- C10: any HTTP status other than exactly 200 — including other 2xx codes
such as 201 or 204 — makes `chat_completion` raise an `HTTPError` whose text
carries the model identifier and the status, and no `LLMResponse` is
constructed. -/
theorem chat_completion_non_200_raises (env : Env)
    (k model prompt user_input reason : String) (status : Nat)
    (body : ChatPayload) (t : Rat) (mt : Int) (el : Rat)
    (hk : _get_api_key env = Except.ok k) (hs : status ≠ 200) :
    chat_completion env (HttpOutcome.response status reason body) model prompt
        user_input t mt el
      = Except.error (PyError.httpError
          (model ++ "\nHTTP error " ++ toString status ++ " - " ++ reason)) := by
  simp only [chat_completion, chat_request, hk]
  rw [if_pos hs]

/-- Witness for C10 at the 2xx status 201. -/
theorem chat_completion_non_200_raises_witness :
    chat_completion envA (HttpOutcome.response 201 "Created" okBody) "model-a"
        "p" "u" 0 2048 0
      = Except.error (PyError.httpError
          ("model-a" ++ "\nHTTP error " ++ toString 201 ++ " - " ++ "Created")) :=
  chat_completion_non_200_raises envA "test-key" "model-a" "p" "u" "Created" 201
    okBody 0 2048 0 rfl (by decide)

end LLMOpenRouter
